import Mathlib

set_option maxHeartbeats 1000000

/-
Shallow embedding of dlrover/python/master/shard_manager/task_manager.py.

Conventions of the embedding:
- Wall-clock time (Python time.time) is modelled as an integer number of
  seconds and passed explicitly as a `now` argument to every operation that
  reads the clock.
- Python dictionaries (the OrderedDict dataset registry and the plain
  worker-time dict) are modelled as insertion-ordered association lists.
- Python exceptions are modelled with Except; each operation also returns
  the manager state as of the moment it returns or raises, together with an
  explicit trace of observable events (log lines, speed-monitor resets,
  timeout-callback invocations).
- The collaborator modules of task_manager.py (batch_dataset_manager,
  base_dataset_manager, dataset_splitter, speed_monitor, the protobuf
  request types) are not part of the sources; the definitions concerned
  carry a doc comment starting with: Modelled from the spec.
-/

namespace Dlrover

/-- Python exception values that the embedded operations can raise. -/
inductive PyErr
  | attributeError (msg : String)
  | valueError (msg : String)
  | notFoundError (msg : String)
  | configurationError (msg : String)
  deriving DecidableEq

/-- Observable side effects of an operation, in emission order. -/
inductive Event
  | logInfo (msg : String)
  | logError (msg : String)
  | monitorReset
  | timeoutCallback (worker_id : Int)
  deriving DecidableEq

/-- Task kinds from elastic_training_pb2. -/
inductive TaskType
  | NONE
  | TRAINING
  | EVALUATION
  | PREDICTION
  deriving DecidableEq

/-- Modelled from the spec: a shard is a contiguous index range inside one
epoch pass (dataset_splitter.py is not among the sources). -/
structure Shard where
  start_index : Int
  end_index : Int
  epoch : Int
  deriving DecidableEq

/-- Modelled from the spec: an immutable task wrapping a shard, a kind and a
unique id (base_dataset_manager.py is not among the sources). -/
structure Task where
  task_id : Int
  task_type : TaskType
  shard : Shard
  deriving DecidableEq

/-- Modelled from the spec: a task currently leased to a worker
(batch_dataset_manager.py is not among the sources). -/
structure DoingTask where
  task : Task
  worker_id : Int
  lease_start_time : Int
  deriving DecidableEq

/-- Lookup in an insertion-ordered association list (Python dict `get`). -/
def dictGet {α β : Type} [DecidableEq α] : List (α × β) → α → Option β
  | [], _ => none
  | p :: rest, k => if p.1 = k then some p.2 else dictGet rest k

/-- Update in an insertion-ordered association list (Python dict `d[k] = v`):
replace the binding if the key is present, append it otherwise. -/
def dictSet {α β : Type} [DecidableEq α] : List (α × β) → α → β → List (α × β)
  | [], k, v => [(k, v)]
  | p :: rest, k, v => if p.1 = k then (k, v) :: rest else p :: dictSet rest k v

/-- Deletion from an association list (Python dict `del d[k]`). -/
def dictRemove {α β : Type} [DecidableEq α] : List (α × β) → α → List (α × β)
  | [], _ => []
  | p :: rest, k => if p.1 = k then dictRemove rest k else p :: dictRemove rest k

/-- Python `x or d` for an optional integer: `None` and `0` are falsy. -/
def pyOrInt (x : Option Int) (d : Int) : Int :=
  match x with
  | none => d
  | some n => if n = 0 then d else n

def TASK_TIMEOUT_THRESHOLD_SECS : Int := 1800

def DEFAULT_NUM_MINIBATCHES_PER_SHARD : Int := 100

def msgSetParams : String := "Set dataset sharding parameters"

def msgAlready : String :=
  "The shards for dataset have already been initialized, ignore these shard parameters"

def msgNegativeSize : String := "No shard for datset because dataset size is negative"

def msgShardSizeNotPositive : String := "the shard size must be positive"

def msgNoDatasetShard : String := "There is no dataset shard for the dataset"

def msgTaskNotFound : String := "task id not found in the doing tasks"

def msgNoneTaskType : String := "NoneType object has no attribute task_type"

def msgNoneRestore : String := "NoneType object has no attribute restore_checkpoint"

def msgNoDatasetForCheckpoint : String := "No dataset for checkpoint"

def msgRestored : String := "Restore dataset shards from checkpoint"

def msgRecover : String := "Recover tasks assigned to worker"

def msgWorkerTimeout : String := "worker timeout with task, relaunch it"

/-- Modelled from the spec: the splitter state produced by
DatasetSplitterFactory.create_dataset_splitter (dataset_splitter.py is not
among the sources).  `shards` is the lazy remaining sequence of shards, the
implicit cursor being its head. -/
structure DatasetSplitter where
  shuffle : Bool
  shard_size : Int
  dataset_size : Int
  num_epochs : Int
  storage_type : Option String
  shards : List Shard
  deriving DecidableEq

/-- Shards of one epoch pass: fixed-size contiguous ranges covering
[0, dataset_size), the final shard possibly shorter. -/
def epochShards (shard_size dataset_size : Nat) (epoch : Int) : List Shard :=
  (List.range ((dataset_size + shard_size - 1) / shard_size)).map (fun k =>
    { start_index := ((k * shard_size : Nat) : Int),
      end_index := ((min ((k + 1) * shard_size) dataset_size : Nat) : Int),
      epoch := epoch })

/-- Shards of all epoch passes, in epoch order. -/
def allShards (shard_size dataset_size num_epochs : Nat) : List Shard :=
  ((List.range num_epochs).map (fun e => epochShards shard_size dataset_size ((e : Nat) : Int))).flatten

/-- Modelled from the spec: DatasetSplitterFactory.create_dataset_splitter.
Fails with a configuration error when the shard size is not positive; a
dataset of size zero yields an empty shard sequence.  The shuffle
permutation is not modelled: it only permutes shard contents, which no
observable behaviour in scope depends on. -/
def create_dataset_splitter (shuffle : Bool) (shard_size dataset_size num_epochs : Int)
    (storage_type : Option String) : Except PyErr DatasetSplitter :=
  if shard_size ≤ 0 then
    Except.error (PyErr.configurationError msgShardSizeNotPositive)
  else
    Except.ok
      { shuffle := shuffle, shard_size := shard_size, dataset_size := dataset_size,
        num_epochs := num_epochs, storage_type := storage_type,
        shards := allShards shard_size.toNat dataset_size.toNat num_epochs.toNat }

/-- Tasks wrapping the given shards, with consecutive ids from `next_id`. -/
def mkTasks (task_type : TaskType) : Int → List Shard → List Task
  | _, [] => []
  | next_id, s :: rest =>
    { task_id := next_id, task_type := task_type, shard := s } ::
      mkTasks task_type (next_id + 1) rest

/-- Modelled from the spec: a dataset-scoped scheduling snapshot
(base_dataset_manager.py is not among the sources).  `todo` holds the
pending shards, `doing` the in-flight shards demoted to pending on restore,
`splitter_shards` the re-seeded splitter cursor.  DatasetShardCheckpoint.from_json
is modelled as the identity on this already-structured record. -/
structure DatasetShardCheckpoint where
  dataset_name : String
  todo : List Shard
  doing : List Shard
  completed_ids : List Int
  epoch : Int
  splitter_shards : List Shard
  deriving DecidableEq

/-- Modelled from the spec: the per-dataset scheduling state machine
(BatchDatasetManager, batch_dataset_manager.py is not among the sources):
pending tasks in order, the in-flight map task_id to DoingTask in insertion
order, the set of completed task ids, and the splitter.  Task ids are minted
from the monotone counter `next_task_id`. -/
structure DatasetManger where
  task_type : TaskType
  batch_size : Int
  dataset_splitter : DatasetSplitter
  todo : List Task
  doing : List (Int × DoingTask)
  completed_ids : List Int
  next_task_id : Int
  deriving DecidableEq

/-- Modelled from the spec: when pending is empty but the splitter is not
exhausted, pull the next batch of shards (the next epoch pass) into pending. -/
def DatasetManger.pull_shards (ds : DatasetManger) : DatasetManger :=
  match ds.dataset_splitter.shards with
  | [] => ds
  | s :: _ =>
    let batch := ds.dataset_splitter.shards.takeWhile (fun x => decide (x.epoch = s.epoch))
    let rest := ds.dataset_splitter.shards.dropWhile (fun x => decide (x.epoch = s.epoch))
    { ds with
      todo := ds.todo ++ mkTasks ds.task_type ds.next_task_id batch,
      next_task_id := ds.next_task_id + ((batch.length : Nat) : Int),
      dataset_splitter := { ds.dataset_splitter with shards := rest } }

/-- Modelled from the spec: DatasetManger.get_task pops the head of pending,
pulling shards from the splitter first when pending is empty; it returns
none exactly when nothing is left to hand out, and otherwise moves the task
to the in-flight map stamped with the worker id and the current time. -/
def DatasetManger.get_task (ds0 : DatasetManger) (worker_id : Int) (now : Int) :
    Option Task × DatasetManger :=
  let ds := if ds0.todo.isEmpty && !ds0.dataset_splitter.shards.isEmpty
            then ds0.pull_shards else ds0
  match ds.todo with
  | [] => (none, ds)
  | t :: rest =>
    (some t,
     { ds with
       todo := rest,
       doing := ds.doing ++ [(t.task_id, { task := t, worker_id := worker_id, lease_start_time := now })] })

/-- Modelled from the spec: DatasetManger.report_task_status fails with a
not-found error when the task id is not in flight; on success it moves the
id to completed; on failure it removes the lease and re-inserts the shard at
the front of pending under a freshly minted task id. -/
def DatasetManger.report_task_status (ds : DatasetManger) (task_id : Int) (success : Bool) :
    Except PyErr (Bool × DoingTask × DatasetManger) :=
  match dictGet ds.doing task_id with
  | none => Except.error (PyErr.notFoundError msgTaskNotFound)
  | some doing_task =>
    if success then
      Except.ok (true, doing_task,
        { ds with
          doing := dictRemove ds.doing task_id,
          completed_ids := ds.completed_ids ++ [task_id] })
    else
      Except.ok (true, doing_task,
        { ds with
          doing := dictRemove ds.doing task_id,
          todo := { task_id := ds.next_task_id,
                    task_type := doing_task.task.task_type,
                    shard := doing_task.task.shard } :: ds.todo,
          next_task_id := ds.next_task_id + 1 })

/-- Modelled from the spec: the in-flight snapshot accessor. -/
def DatasetManger.get_doing_tasks (ds : DatasetManger) : List (Int × DoingTask) :=
  ds.doing

/-- Modelled from the spec: a dataset is completed when pending is empty,
nothing is in flight and the splitter is exhausted. -/
def DatasetManger.completed (ds : DatasetManger) : Bool :=
  ds.todo.isEmpty && ds.doing.isEmpty && ds.dataset_splitter.shards.isEmpty

/-- Modelled from the spec: restore fully replaces the scheduling state; the
in-flight shards of the snapshot are demoted to pending ahead of the pending
shards, no lease survives, and the splitter cursor is re-seeded. -/
def DatasetManger.restore_checkpoint (ds : DatasetManger) (ckpt : DatasetShardCheckpoint) :
    DatasetManger :=
  { ds with
    todo := mkTasks ds.task_type ds.next_task_id (ckpt.doing ++ ckpt.todo),
    doing := [],
    completed_ids := ckpt.completed_ids,
    next_task_id := ds.next_task_id + (((ckpt.doing ++ ckpt.todo).length : Nat) : Int),
    dataset_splitter := { ds.dataset_splitter with shards := ckpt.splitter_shards } }

/-- Modelled from the spec: the throughput monitor simply records progress
samples; resetting clears the running records. -/
structure SpeedMonitor where
  running_speed_records : List Int
  deriving DecidableEq

def SpeedMonitor.reset_running_speed_monitor (m : SpeedMonitor) : SpeedMonitor :=
  { m with running_speed_records := [] }

/-- Modelled from the spec: the wire shape of a task status report
(elastic_training_pb2.ReportTaskResultRequest). -/
structure ReportTaskResultRequest where
  task_id : Int
  dataset_name : String
  deriving DecidableEq

/-- State of TaskManager (task_manager.py).  The callback list holds opaque
functions in the source; only their number is observable, invocation being
recorded in the event trace. -/
structure TaskManager where
  relaunch_timeout_worker : Bool
  should_stop : Bool
  datasets : List (String × DatasetManger)
  worker_start_task_time : List (Int × Int)
  task_timeout_callbacks : Nat
  speed_monitor : SpeedMonitor
  deriving DecidableEq

/-- TaskManager.__init__ . -/
def TaskManager.init (relaunch_timeout_worker : Bool) : TaskManager :=
  { relaunch_timeout_worker := relaunch_timeout_worker,
    should_stop := false,
    datasets := [],
    worker_start_task_time := [],
    task_timeout_callbacks := 0,
    speed_monitor := { running_speed_records := [] } }

/-- TaskManager.new_dataset: logs its parameters, ignores the call when the
name is already registered, aborts with a logged error when the dataset size
is negative, and otherwise registers a fresh BatchDatasetManager over a
splitter created with shard size batch_size * (num_minibatches_per_shard or 100). -/
def TaskManager.new_dataset (tm : TaskManager) (batch_size num_epochs dataset_size : Int)
    (shuffle : Bool) (num_minibatches_per_shard : Option Int) (dataset_name : String)
    (task_type : TaskType) (storage_type : Option String) :
    Except PyErr Unit × TaskManager × List Event :=
  if (dictGet tm.datasets dataset_name).isSome then
    (Except.ok (), tm, [Event.logInfo msgSetParams, Event.logInfo msgAlready])
  else if dataset_size < 0 then
    (Except.ok (), tm, [Event.logInfo msgSetParams, Event.logError msgNegativeSize])
  else
    let num_minibatches_per_task := pyOrInt num_minibatches_per_shard DEFAULT_NUM_MINIBATCHES_PER_SHARD
    let shard_size := batch_size * num_minibatches_per_task
    match create_dataset_splitter shuffle shard_size dataset_size num_epochs storage_type with
    | Except.error e => (Except.error e, tm, [Event.logInfo msgSetParams])
    | Except.ok dataset_splitter =>
      let dataset : DatasetManger :=
        { task_type := task_type, batch_size := batch_size,
          dataset_splitter := dataset_splitter,
          todo := [], doing := [], completed_ids := [], next_task_id := 0 }
      (Except.ok (), { tm with datasets := dictSet tm.datasets dataset_name dataset },
       [Event.logInfo msgSetParams])

/-- TaskManager.get_dataset_task: an unknown dataset name yields none; a
known dataset delegates to its get_task, then reads task.task_type (an
attribute error when get_task yielded none), resets the speed monitor for an
EVALUATION task, and records the lease start time of the worker. -/
def TaskManager.get_dataset_task (tm : TaskManager) (worker_id : Int) (dataset_name : String)
    (now : Int) : Except PyErr (Option Task) × TaskManager × List Event :=
  match dictGet tm.datasets dataset_name with
  | none => (Except.ok none, tm, [])
  | some dataset =>
    match dataset.get_task worker_id now with
    | (none, dataset1) =>
      (Except.error (PyErr.attributeError msgNoneTaskType),
       { tm with datasets := dictSet tm.datasets dataset_name dataset1 }, [])
    | (some task, dataset1) =>
      let tm1 : TaskManager := { tm with datasets := dictSet tm.datasets dataset_name dataset1 }
      if task.task_type = TaskType.EVALUATION then
        (Except.ok (some task),
         { tm1 with
           speed_monitor := tm1.speed_monitor.reset_running_speed_monitor,
           worker_start_task_time := dictSet tm1.worker_start_task_time worker_id now },
         [Event.monitorReset])
      else
        (Except.ok (some task),
         { tm1 with worker_start_task_time := dictSet tm1.worker_start_task_time worker_id now },
         [])

/-- TaskManager.get_dataset . -/
def TaskManager.get_dataset (tm : TaskManager) (dataset_name : String) : Option DatasetManger :=
  dictGet tm.datasets dataset_name

/-- TaskManager.report_dataset_task: raises a value error when the named
dataset does not exist; otherwise delegates to report_task_status and
refreshes the last-active time of the worker holding the lease. -/
def TaskManager.report_dataset_task (tm : TaskManager) (request : ReportTaskResultRequest)
    (success : Bool) (now : Int) : Except PyErr (Task × Int) × TaskManager × List Event :=
  match dictGet tm.datasets request.dataset_name with
  | none => (Except.error (PyErr.valueError msgNoDatasetShard), tm, [])
  | some dataset =>
    match dataset.report_task_status request.task_id success with
    | Except.error e => (Except.error e, tm, [])
    | Except.ok (_, doing_task, dataset1) =>
      (Except.ok (doing_task.task, doing_task.worker_id),
       { tm with
         datasets := dictSet tm.datasets request.dataset_name dataset1,
         worker_start_task_time := dictSet tm.worker_start_task_time doing_task.worker_id now },
       [])

/-- TaskManager.finished: false when no dataset exists, otherwise the
conjunction of completed() over all datasets. -/
def TaskManager.finished (tm : TaskManager) : Bool :=
  if tm.datasets.isEmpty then false
  else tm.datasets.all (fun p => p.2.completed)

/-- Inner loop of TaskManager.recover_tasks: report each collected task id
of one dataset as failed, propagating any exception. -/
def TaskManager.reportFailedTasks (name : String) (now : Int) :
    TaskManager → List Int → Except PyErr (TaskManager × List Event)
  | tm, [] => Except.ok (tm, [])
  | tm, id :: rest =>
    match tm.report_dataset_task { task_id := id, dataset_name := name } false now with
    | (Except.error e, _, _) => Except.error e
    | (Except.ok _, tm1, evs) =>
      match TaskManager.reportFailedTasks name now tm1 rest with
      | Except.error e => Except.error e
      | Except.ok (tm2, evs2) => Except.ok (tm2, evs ++ evs2)

/-- Outer loop of TaskManager.recover_tasks over the dataset names: collect
the in-flight task ids leased to the worker and report each as failed. -/
def TaskManager.recoverLoop (w now : Int) :
    TaskManager → List String → Except PyErr (TaskManager × List Event)
  | tm, [] => Except.ok (tm, [])
  | tm, name :: rest =>
    match dictGet tm.datasets name with
    | none =>
      match TaskManager.recoverLoop w now tm rest with
      | Except.error e => Except.error e
      | Except.ok (tm2, evs2) => Except.ok (tm2, Event.logInfo msgRecover :: evs2)
    | some dataset =>
      let ids := (dataset.get_doing_tasks.filter (fun p => decide (p.2.worker_id = w))).map Prod.fst
      match TaskManager.reportFailedTasks name now tm ids with
      | Except.error e => Except.error e
      | Except.ok (tm1, evs1) =>
        match TaskManager.recoverLoop w now tm1 rest with
        | Except.error e => Except.error e
        | Except.ok (tm2, evs2) =>
          Except.ok (tm2, evs1 ++ Event.logInfo msgRecover :: evs2)

/-- TaskManager.recover_tasks: for every dataset, report as failed every
in-flight task leased to the given worker. -/
def TaskManager.recover_tasks (tm : TaskManager) (worker_id now : Int) :
    Except PyErr (TaskManager × List Event) :=
  TaskManager.recoverLoop worker_id now tm (tm.datasets.map Prod.fst)

/-- TaskManager.get_dataset_checkpoint . -/
def TaskManager.get_dataset_checkpoint (tm : TaskManager) (dataset_name : String)
    (ckpt_of : DatasetManger → DatasetShardCheckpoint) : Option DatasetShardCheckpoint :=
  match dictGet tm.datasets dataset_name with
  | some dataset => some (ckpt_of dataset)
  | none => none

/-- TaskManager.restore_dataset_from_checkpoint: looks up the dataset named
by the checkpoint; when it is missing the source logs an error and then
still calls dataset.restore_checkpoint on the None lookup result, which
raises an attribute error (the protecting try/except of the source is
commented out and the final return False is unreachable). -/
def TaskManager.restore_dataset_from_checkpoint (tm : TaskManager)
    (checkpoint : DatasetShardCheckpoint) : Except PyErr Bool × TaskManager × List Event :=
  match dictGet tm.datasets checkpoint.dataset_name with
  | none =>
    (Except.error (PyErr.attributeError msgNoneRestore), tm,
     [Event.logError msgNoDatasetForCheckpoint])
  | some dataset =>
    (Except.ok true,
     { tm with
       datasets := dictSet tm.datasets checkpoint.dataset_name
         (dataset.restore_checkpoint checkpoint) },
     [Event.logInfo msgRestored])

/-- Timeout test of one in-flight entry in the scan of
TaskManager._check_and_reassign_timeout_tasks: kind EVALUATION and the lease
of the worker older than the threshold, the lease start defaulting to the
current instant when the worker has no recorded start time. -/
def breached (wstart : List (Int × Int)) (cur : Int) (p : Int × DoingTask) : Bool :=
  decide (p.2.task.task_type = TaskType.EVALUATION) &&
    decide (TASK_TIMEOUT_THRESHOLD_SECS < cur - ((dictGet wstart p.2.worker_id).getD cur))

/-- Scan of one dataset in one pass: on the first breached entry, log, invoke
every registered callback with the worker id, and stop scanning the dataset. -/
def scanDataset (wstart : List (Int × Int)) (ncb : Nat) (cur : Int) :
    List (Int × DoingTask) → List Event
  | [] => []
  | p :: rest =>
    if breached wstart cur p then
      Event.logInfo msgWorkerTimeout ::
        List.replicate ncb (Event.timeoutCallback p.2.worker_id)
    else scanDataset wstart ncb cur rest

/-- One pass of the timeout-detection loop of
TaskManager._check_and_reassign_timeout_tasks over all datasets. -/
def TaskManager.check_and_reassign_timeout_tasks_pass (tm : TaskManager) (cur : Int) :
    List Event :=
  (tm.datasets.map (fun p =>
    scanDataset tm.worker_start_task_time tm.task_timeout_callbacks cur p.2.doing)).flatten

/-- TaskManager.set_task_timeout_callback . -/
def TaskManager.set_task_timeout_callback (tm : TaskManager) : TaskManager :=
  { tm with task_timeout_callbacks := tm.task_timeout_callbacks + 1 }

/-- Specification helper: the expected per-dataset effect of recover_tasks on
one dataset, re-queuing the shards of the worker in reverse processing order
under freshly minted task ids. -/
def requeueTasks : Int → List (Int × DoingTask) → List Task
  | _, [] => []
  | n, p :: rest =>
    requeueTasks (n + 1) rest ++
      [{ task_id := n, task_type := p.2.task.task_type, shard := p.2.task.shard }]

/-- Specification helper: look up a list of keys in an in-flight map. -/
def lookupAll (m : List (Int × DoingTask)) (ids : List Int) : List (Int × DoingTask) :=
  ids.filterMap (fun id => (dictGet m id).map (fun dt => (id, dt)))

/-- Specification helper: iterated dictRemove in processing order. -/
def dictRemoveAll {α β : Type} [DecidableEq α] : List (α × β) → List α → List (α × β)
  | m, [] => m
  | m, k :: rest => dictRemoveAll (dictRemove m k) rest

/-- Specification helper: the expected state of one dataset after
recover_tasks for worker w: the leases of w released, their shards re-queued
at the front of pending under fresh ids, completed untouched. -/
def recoverDataset (ds : DatasetManger) (w : Int) : DatasetManger :=
  { ds with
    doing := ds.doing.filter (fun p => !(decide (p.2.worker_id = w))),
    todo := requeueTasks ds.next_task_id
        (ds.doing.filter (fun p => decide (p.2.worker_id = w))) ++ ds.todo,
    next_task_id := ds.next_task_id +
        (((ds.doing.filter (fun p => decide (p.2.worker_id = w))).length : Nat) : Int) }

/-- Specification helper: the cumulative effect on one dataset of reporting
the given in-flight task ids as failed, in order. -/
def failState (ds : DatasetManger) (ids : List Int) : DatasetManger :=
  { ds with
    doing := dictRemoveAll ds.doing ids,
    todo := requeueTasks ds.next_task_id (lookupAll ds.doing ids) ++ ds.todo,
    next_task_id := ds.next_task_id + ((ids.length : Nat) : Int) }

/-- A fresh manager holding one dataset named d whose splitter is exhausted
from the start (dataset size zero). -/
def tmD : TaskManager :=
  ((TaskManager.init false).new_dataset 1 1 0 false none "d" TaskType.NONE none).2.1

/-- The dataset registered in tmD. -/
def dsD : DatasetManger :=
  { task_type := TaskType.NONE, batch_size := 1,
    dataset_splitter :=
      { shuffle := false, shard_size := 100, dataset_size := 0, num_epochs := 1,
        storage_type := none, shards := [] },
    todo := [], doing := [], completed_ids := [], next_task_id := 0 }

/-- A checkpoint naming a dataset d. -/
def ckptD : DatasetShardCheckpoint :=
  { dataset_name := "d", todo := [], doing := [], completed_ids := [], epoch := 0,
    splitter_shards := [] }

def shardA : Shard := { start_index := 0, end_index := 2, epoch := 0 }

def shardB : Shard := { start_index := 2, end_index := 4, epoch := 0 }

def splitterDone : DatasetSplitter :=
  { shuffle := false, shard_size := 2, dataset_size := 2, num_epochs := 1,
    storage_type := none, shards := [] }

/-- An in-flight lease of worker 7 on shardA. -/
def dtA : DoingTask :=
  { task := { task_id := 0, task_type := TaskType.TRAINING, shard := shardA },
    worker_id := 7, lease_start_time := 10 }

/-- An in-flight lease of worker 7 on shardB. -/
def dtB : DoingTask :=
  { task := { task_id := 0, task_type := TaskType.TRAINING, shard := shardB },
    worker_id := 7, lease_start_time := 11 }

def dsA : DatasetManger :=
  { task_type := TaskType.TRAINING, batch_size := 2, dataset_splitter := splitterDone,
    todo := [], doing := [(0, dtA)], completed_ids := [], next_task_id := 1 }

def dsB : DatasetManger :=
  { task_type := TaskType.TRAINING, batch_size := 2, dataset_splitter := splitterDone,
    todo := [], doing := [(0, dtB)], completed_ids := [], next_task_id := 1 }

/-- A manager with two datasets, each holding one in-flight lease of worker 7. -/
def tmC5 : TaskManager :=
  { relaunch_timeout_worker := true, should_stop := false,
    datasets := [("a", dsA), ("b", dsB)],
    worker_start_task_time := [(7, 10)],
    task_timeout_callbacks := 1,
    speed_monitor := { running_speed_records := [] } }

/-- An in-flight EVALUATION lease of worker 5 leased at time 1000. -/
def dtEval : DoingTask :=
  { task := { task_id := 0, task_type := TaskType.EVALUATION, shard := shardA },
    worker_id := 5, lease_start_time := 1000 }

def dsEval : DatasetManger :=
  { task_type := TaskType.EVALUATION, batch_size := 2, dataset_splitter := splitterDone,
    todo := [], doing := [(0, dtEval)], completed_ids := [], next_task_id := 1 }

/-- A manager with one EVALUATION lease for the timeout-scan scenario. -/
def tmEval : TaskManager :=
  { relaunch_timeout_worker := true, should_stop := false,
    datasets := [("e", dsEval)],
    worker_start_task_time := [(5, 1000)],
    task_timeout_callbacks := 1,
    speed_monitor := { running_speed_records := [] } }

theorem dictGet_dictSet_self {α β : Type} [DecidableEq α] (m : List (α × β)) (k : α) (v : β) :
    dictGet (dictSet m k v) k = some v := by
  induction m with
  | nil => simp [dictSet, dictGet]
  | cons p rest ih =>
    by_cases h : p.1 = k
    · simp [dictSet, dictGet, h]
    · simp [dictSet, dictGet, h, ih]

theorem dictGet_dictSet_ne {α β : Type} [DecidableEq α] (m : List (α × β)) (k k' : α) (v : β)
    (h : ¬ k = k') : dictGet (dictSet m k v) k' = dictGet m k' := by
  induction m with
  | nil => simp [dictSet, dictGet, h]
  | cons p rest ih =>
    by_cases hp : p.1 = k
    · simp [dictSet, dictGet, hp, h]
    · simp [dictSet, dictGet, hp, ih]

theorem dictSet_dictSet {α β : Type} [DecidableEq α] (m : List (α × β)) (k : α) (v v' : β) :
    dictSet (dictSet m k v) k v' = dictSet m k v' := by
  induction m with
  | nil => simp [dictSet]
  | cons p rest ih =>
    by_cases hp : p.1 = k
    · simp [dictSet, hp]
    · simp [dictSet, hp, ih]

theorem dictGet_mem {α β : Type} [DecidableEq α] (m : List (α × β)) (k : α) (v : β)
    (h : dictGet m k = some v) : (k, v) ∈ m := by
  induction m with
  | nil => simp [dictGet] at h
  | cons p rest ih =>
    by_cases hp : p.1 = k
    · simp [dictGet, hp] at h
      subst hp
      subst h
      exact List.mem_cons_self _ _
    · simp [dictGet, hp] at h
      exact List.mem_cons_of_mem _ (ih h)

theorem mem_dictGet_of_nodup {α β : Type} [DecidableEq α] (m : List (α × β)) (k : α) (v : β)
    (hnd : (m.map Prod.fst).Nodup) (h : (k, v) ∈ m) : dictGet m k = some v := by
  induction m with
  | nil => simp at h
  | cons p rest ih =>
    simp only [List.map_cons, List.nodup_cons] at hnd
    rcases List.mem_cons.mp h with h1 | h1
    · subst h1
      simp [dictGet]
    · have hk : ¬ p.1 = k := by
        intro he
        exact hnd.1 (he ▸ (List.mem_map.mpr ⟨(k, v), h1, rfl⟩))
      simp [dictGet, hk]
      exact ih hnd.2 h1

theorem exists_dictGet_of_mem_keys {α β : Type} [DecidableEq α] (m : List (α × β)) (k : α)
    (h : k ∈ m.map Prod.fst) : ∃ v, dictGet m k = some v := by
  induction m with
  | nil => simp at h
  | cons p rest ih =>
    by_cases hp : p.1 = k
    · exact ⟨p.2, by simp [dictGet, hp]⟩
    · rcases List.mem_map.mp h with ⟨q, hq, hqk⟩
      rcases List.mem_cons.mp hq with h1 | h1
      · exact absurd (h1 ▸ hqk) hp
      · rcases ih (List.mem_map.mpr ⟨q, h1, hqk⟩) with ⟨v, hv⟩
        exact ⟨v, by simp [dictGet, hp, hv]⟩

theorem dictGet_dictRemove_ne {α β : Type} [DecidableEq α] (m : List (α × β)) (k k' : α)
    (h : ¬ k = k') : dictGet (dictRemove m k) k' = dictGet m k' := by
  induction m with
  | nil => simp [dictRemove]
  | cons p rest ih =>
    simp only [dictRemove]
    by_cases hp : p.1 = k
    · rw [if_pos hp, ih]
      have hp' : ¬ p.1 = k' := fun he => h (hp ▸ he)
      simp [dictGet, hp']
    · rw [if_neg hp]
      simp only [dictGet]
      by_cases hq : p.1 = k'
      · rw [if_pos hq, if_pos hq]
      · rw [if_neg hq, if_neg hq, ih]

theorem dictRemove_eq_filter {α β : Type} [DecidableEq α] (m : List (α × β)) (k : α) :
    dictRemove m k = m.filter (fun p => !(decide (p.1 = k))) := by
  induction m with
  | nil => simp [dictRemove]
  | cons p rest ih =>
    by_cases hp : p.1 = k
    · simp [dictRemove, hp, List.filter, ih]
    · simp [dictRemove, hp, List.filter, ih]

theorem pair_eq_of_keys_nodup {α β : Type} [DecidableEq α] (m : List (α × β))
    (hnd : (m.map Prod.fst).Nodup) (p q : α × β) (hp : p ∈ m) (hq : q ∈ m)
    (hk : p.1 = q.1) : p = q := by
  induction m with
  | nil => simp at hp
  | cons r rest ih =>
    simp only [List.map_cons, List.nodup_cons] at hnd
    rcases List.mem_cons.mp hp with h1 | h1 <;> rcases List.mem_cons.mp hq with h2 | h2
    · rw [h1, h2]
    · exact absurd (List.mem_map.mpr ⟨q, h2, ((h1 ▸ hk) : r.1 = q.1).symm⟩) hnd.1
    · exact absurd (List.mem_map.mpr ⟨p, h1, (h2 ▸ hk.symm : r.1 = p.1).symm⟩) hnd.1
    · exact ih hnd.2 h1 h2

/-- Claim C1: the source is expected to log and return false when the
checkpoint names an unknown dataset, but instead it raises an attribute
error: after logging, it unconditionally calls restore_checkpoint on the
None lookup result.  Evaluation of the embedded code on a fresh manager and
a checkpoint naming dataset d shows the raise (the state at the raise is
still untouched). -/
theorem c1_restore_unknown_dataset_raises :
    (TaskManager.init false).restore_dataset_from_checkpoint ckptD =
      (Except.error (PyErr.attributeError msgNoneRestore), TaskManager.init false,
       [Event.logError msgNoDatasetForCheckpoint]) := rfl

/-- Claim C2: the spec has DatasetManger.get_task yield none when nothing is
left to hand out, and the claim says get_dataset_task passes that none on
without raising; but the source reads task.task_type before the None check
can matter, so a registered dataset with nothing left makes the call raise
an attribute error, and no lease start time is recorded. -/
theorem c2_get_dataset_task_none_raises :
    (dictGet tmD.datasets "d").isSome = true ∧
    tmD.get_dataset_task 3 "d" 50 =
      (Except.error (PyErr.attributeError msgNoneTaskType), tmD, []) ∧
    (tmD.get_dataset_task 3 "d" 50).2.1.worker_start_task_time = [] := by
  refine ⟨rfl, ?_, rfl⟩
  rfl

/-- Claim C4, counterexample: dataset d exists in tmD, yet the call reporting
the unknown task id 0 raises a not-found error and leaves the manager, in
particular the worker last-active-time map, unchanged; so it is not the case
that every report_dataset_task call on an existing dataset refreshes the
reporting worker's last-active time to the current time (5 is recorded
nowhere). -/
theorem c4_report_unknown_task_no_refresh :
    (dictGet tmD.datasets "d").isSome = true ∧
    tmD.report_dataset_task { task_id := 0, dataset_name := "d" } true 5 =
      (Except.error (PyErr.notFoundError msgTaskNotFound), tmD, []) ∧
    (tmD.report_dataset_task { task_id := 0, dataset_name := "d" } true 5).2.1.worker_start_task_time
      = [] := by
  refine ⟨rfl, ?_, rfl⟩
  rfl

/-- Claim C6: a new_dataset call whose name is already registered is a
silent no-op, whatever the other parameters are: it returns normally (only
logging) and the whole manager, in particular the dataset created by the
first call, is untouched. -/
theorem c6_new_dataset_idempotent (tm : TaskManager) (batch_size num_epochs dataset_size : Int)
    (shuffle : Bool) (num_minibatches_per_shard : Option Int) (dataset_name : String)
    (task_type : TaskType) (storage_type : Option String)
    (h : (dictGet tm.datasets dataset_name).isSome = true) :
    tm.new_dataset batch_size num_epochs dataset_size shuffle num_minibatches_per_shard
        dataset_name task_type storage_type =
      (Except.ok (), tm, [Event.logInfo msgSetParams, Event.logInfo msgAlready]) := by
  simp [TaskManager.new_dataset, h]

/-- Witness for C6: a second call for dataset d with entirely different
parameters leaves tmD untouched. -/
theorem c6_new_dataset_idempotent_witness :
    tmD.new_dataset 8 3 999 true (some 5) "d" TaskType.EVALUATION (some "table") =
      (Except.ok (), tmD, [Event.logInfo msgSetParams, Event.logInfo msgAlready]) :=
  c6_new_dataset_idempotent tmD 8 3 999 true (some 5) "d" TaskType.EVALUATION (some "table")
    (by decide)

/-- Claim C7: a new_dataset call with a negative dataset size and a fresh
name logs an error and returns normally, creating nothing: the manager, in
particular the dataset registry, is unchanged. -/
theorem c7_new_dataset_negative_size (tm : TaskManager) (batch_size num_epochs dataset_size : Int)
    (shuffle : Bool) (num_minibatches_per_shard : Option Int) (dataset_name : String)
    (task_type : TaskType) (storage_type : Option String)
    (hname : dictGet tm.datasets dataset_name = none) (hsize : dataset_size < 0) :
    tm.new_dataset batch_size num_epochs dataset_size shuffle num_minibatches_per_shard
        dataset_name task_type storage_type =
      (Except.ok (), tm, [Event.logInfo msgSetParams, Event.logError msgNegativeSize]) := by
  simp [TaskManager.new_dataset, hname, hsize]

/-- Witness for C7: creating a dataset of size -1 on a fresh manager is a
logged no-op. -/
theorem c7_new_dataset_negative_size_witness :
    (TaskManager.init true).new_dataset 2 1 (-1) false none "neg" TaskType.TRAINING none =
      (Except.ok (), TaskManager.init true,
       [Event.logInfo msgSetParams, Event.logError msgNegativeSize]) :=
  c7_new_dataset_negative_size (TaskManager.init true) 2 1 (-1) false none "neg"
    TaskType.TRAINING none (by decide) (by decide)

/-- Claim C8: finished() is true exactly when at least one dataset is
registered and every registered dataset reports completed(); in particular
it is false when no dataset exists. -/
theorem c8_finished_iff (tm : TaskManager) :
    tm.finished = true ↔ (tm.datasets ≠ [] ∧ ∀ p ∈ tm.datasets, p.2.completed = true) := by
  cases h : tm.datasets with
  | nil => simp [TaskManager.finished, h]
  | cons q rest => simp [TaskManager.finished, h, List.all_eq_true]

/-- Claim C10: get_dataset_task on an unknown dataset name returns none
without raising and changes nothing: the whole manager state is returned
as-is (no lease start time recorded, no monitor reset, empty event trace),
whereas report_dataset_task raises a value error for the same name. -/
theorem c10_get_dataset_task_unknown (tm : TaskManager) (worker_id now : Int)
    (dataset_name : String) (h : dictGet tm.datasets dataset_name = none) :
    tm.get_dataset_task worker_id dataset_name now = (Except.ok none, tm, []) ∧
    (∀ task_id success,
      (tm.report_dataset_task { task_id := task_id, dataset_name := dataset_name } success now).1 =
        Except.error (PyErr.valueError msgNoDatasetShard)) := by
  constructor
  · simp [TaskManager.get_dataset_task, h]
  · intro task_id success
    simp [TaskManager.report_dataset_task, h]

/-- Witness for C10: asking a fresh manager for a task of the unknown
dataset q yields none and no state change, while reporting raises. -/
theorem c10_get_dataset_task_unknown_witness :
    (TaskManager.init true).get_dataset_task 1 "q" 42 = (Except.ok none, TaskManager.init true, []) ∧
    (∀ task_id success,
      ((TaskManager.init true).report_dataset_task
          { task_id := task_id, dataset_name := "q" } success 42).1 =
        Except.error (PyErr.valueError msgNoDatasetShard)) :=
  c10_get_dataset_task_unknown (TaskManager.init true) 1 42 "q" (by decide)

/-- Claim C9: a new_dataset call that actually creates a dataset hands the
splitter a shard size of batch_size * num_minibatches_per_shard when that
parameter is a non-zero value, and batch_size * 100 when it is absent or
zero (falsy). -/
theorem c9_shard_size (tm : TaskManager) (batch_size num_epochs dataset_size : Int)
    (shuffle : Bool) (num_minibatches_per_shard : Option Int) (dataset_name : String)
    (task_type : TaskType) (storage_type : Option String)
    (hname : dictGet tm.datasets dataset_name = none)
    (hsize : ¬ dataset_size < 0)
    (hpos : 0 < batch_size * pyOrInt num_minibatches_per_shard DEFAULT_NUM_MINIBATCHES_PER_SHARD) :
    ∃ ds, dictGet (tm.new_dataset batch_size num_epochs dataset_size shuffle
              num_minibatches_per_shard dataset_name task_type storage_type).2.1.datasets
            dataset_name = some ds ∧
      (∀ n, num_minibatches_per_shard = some n → ¬ n = 0 →
        ds.dataset_splitter.shard_size = batch_size * n) ∧
      ((num_minibatches_per_shard = none ∨ num_minibatches_per_shard = some 0) →
        ds.dataset_splitter.shard_size = batch_size * 100) := by
  have hle : ¬ batch_size * pyOrInt num_minibatches_per_shard DEFAULT_NUM_MINIBATCHES_PER_SHARD ≤ 0 :=
    not_le.mpr hpos
  refine
    ⟨{ task_type := task_type, batch_size := batch_size,
       dataset_splitter :=
         { shuffle := shuffle,
           shard_size := batch_size * pyOrInt num_minibatches_per_shard
               DEFAULT_NUM_MINIBATCHES_PER_SHARD,
           dataset_size := dataset_size, num_epochs := num_epochs,
           storage_type := storage_type,
           shards := allShards (batch_size * pyOrInt num_minibatches_per_shard
               DEFAULT_NUM_MINIBATCHES_PER_SHARD).toNat dataset_size.toNat num_epochs.toNat },
       todo := [], doing := [], completed_ids := [], next_task_id := 0 }, ?_, ?_, ?_⟩
  · simp [TaskManager.new_dataset, hname, hsize, create_dataset_splitter, hle,
      dictGet_dictSet_self]
  · intro n hn hn0
    simp [hn, pyOrInt, hn0]
  · intro hfalsy
    rcases hfalsy with hf | hf <;> simp [hf, pyOrInt, DEFAULT_NUM_MINIBATCHES_PER_SHARD]

/-- Witness for C9: on a fresh manager, batch size 4 with 25 minibatches per
shard yields a splitter shard size of 100 = 4 * 25. -/
theorem c9_shard_size_witness :
    ∃ ds, dictGet ((TaskManager.init true).new_dataset 4 1 10 false (some 25) "e"
              TaskType.TRAINING none).2.1.datasets "e" = some ds ∧
      (∀ n, (some 25 : Option Int) = some n → ¬ n = 0 →
        ds.dataset_splitter.shard_size = 4 * n) ∧
      (((some 25 : Option Int) = none ∨ (some 25 : Option Int) = some 0) →
        ds.dataset_splitter.shard_size = 4 * 100) :=
  c9_shard_size (TaskManager.init true) 4 1 10 false (some 25) "e" TaskType.TRAINING none
    (by decide) (by decide) (by decide)

/-- Claim C4 as amended: a report naming an unknown dataset raises a value
error (the not-found failure of the source) that propagates, with the whole
manager state, in particular the worker last-active-time map, unchanged; and
when the dataset exists and the reported task id is among its in-flight
tasks, the call returns that lease's task and worker and refreshes that
worker's last-active time to the current time. -/
theorem c4_report_dataset_task (tm : TaskManager) (request : ReportTaskResultRequest)
    (success : Bool) (now : Int) :
    (dictGet tm.datasets request.dataset_name = none →
      tm.report_dataset_task request success now =
        (Except.error (PyErr.valueError msgNoDatasetShard), tm, [])) ∧
    (∀ ds dt, dictGet tm.datasets request.dataset_name = some ds →
      dictGet ds.doing request.task_id = some dt →
      (tm.report_dataset_task request success now).1 = Except.ok (dt.task, dt.worker_id) ∧
      (tm.report_dataset_task request success now).2.1.worker_start_task_time =
        dictSet tm.worker_start_task_time dt.worker_id now) := by
  constructor
  · intro h
    simp [TaskManager.report_dataset_task, h]
  · intro ds dt hds hdt
    cases success <;>
      simp [TaskManager.report_dataset_task, hds, DatasetManger.report_task_status, hdt]

/-- Witness for C4: an unknown dataset name makes the report raise and leave
tmD unchanged; reporting the in-flight task 0 of dataset a on tmC5 returns
the lease of worker 7 and refreshes worker 7's last-active time. -/
theorem c4_report_dataset_task_witness :
    (tmD.report_dataset_task { task_id := 0, dataset_name := "x" } true 5 =
      (Except.error (PyErr.valueError msgNoDatasetShard), tmD, [])) ∧
    ((tmC5.report_dataset_task { task_id := 0, dataset_name := "a" } false 99).1 =
        Except.ok (dtA.task, dtA.worker_id) ∧
      (tmC5.report_dataset_task
          { task_id := 0, dataset_name := "a" } false 99).2.1.worker_start_task_time =
        dictSet tmC5.worker_start_task_time dtA.worker_id 99) :=
  ⟨(c4_report_dataset_task tmD { task_id := 0, dataset_name := "x" } true 5).1 (by decide),
   (c4_report_dataset_task tmC5 { task_id := 0, dataset_name := "a" } false 99).2 dsA dtA
     (by decide) (by decide)⟩

theorem scanDataset_eq_find (wstart : List (Int × Int)) (ncb : Nat) (cur : Int)
    (doing : List (Int × DoingTask)) :
    scanDataset wstart ncb cur doing =
      (match doing.find? (breached wstart cur) with
       | none => []
       | some q => Event.logInfo msgWorkerTimeout ::
           List.replicate ncb (Event.timeoutCallback q.2.worker_id)) := by
  induction doing with
  | nil => simp [scanDataset]
  | cons p rest ih =>
    by_cases h : breached wstart cur p
    · simp [scanDataset, h, List.find?_cons_of_pos]
    · simp only [scanDataset, h, if_false, ih, Bool.false_eq_true]
      rw [List.find?_cons_of_neg _ (by simp [h])]

/-- Claim C3: in one pass of the timeout scan, (1) a callback is invoked
only with the worker of an in-flight EVALUATION task whose lease start time
(defaulting to the scan instant when absent) is more than 1800 seconds old,
strictly; (2) within one dataset only the first breached entry triggers, and
scanning stops there for this pass; (3) for a single EVALUATION task leased
at T by worker w with one registered callback, a scan at T+1799 emits no
callback and a scan at T+1801 emits exactly one callback carrying w. -/
theorem c3_timeout_scan_pass (tm : TaskManager) (cur : Int) :
    (∀ w, Event.timeoutCallback w ∈ tm.check_and_reassign_timeout_tasks_pass cur →
      ∃ p ∈ tm.datasets, ∃ q ∈ p.2.doing,
        q.2.worker_id = w ∧ q.2.task.task_type = TaskType.EVALUATION ∧
        TASK_TIMEOUT_THRESHOLD_SECS <
          cur - ((dictGet tm.worker_start_task_time w).getD cur)) ∧
    (∀ doing : List (Int × DoingTask),
      scanDataset tm.worker_start_task_time tm.task_timeout_callbacks cur doing =
        (match doing.find? (breached tm.worker_start_task_time cur) with
         | none => []
         | some q => Event.logInfo msgWorkerTimeout ::
             List.replicate tm.task_timeout_callbacks (Event.timeoutCallback q.2.worker_id))) ∧
    (∀ T w tid : Int, ∀ s : Shard, ∀ name : String, ∀ ds : DatasetManger,
      tm.datasets = [(name, ds)] →
      ds.doing = [(tid, { task := { task_id := tid, task_type := TaskType.EVALUATION, shard := s },
                          worker_id := w, lease_start_time := T })] →
      tm.worker_start_task_time = [(w, T)] →
      tm.task_timeout_callbacks = 1 →
      tm.check_and_reassign_timeout_tasks_pass (T + 1799) = [] ∧
      tm.check_and_reassign_timeout_tasks_pass (T + 1801) =
        [Event.logInfo msgWorkerTimeout, Event.timeoutCallback w]) := by
  refine ⟨?_, ?_, ?_⟩
  · intro w hw
    simp only [TaskManager.check_and_reassign_timeout_tasks_pass, List.mem_flatten,
      List.mem_map] at hw
    obtain ⟨l, ⟨p, hp, hl⟩, hev⟩ := hw
    subst hl
    rw [scanDataset_eq_find] at hev
    rcases hfind : List.find? (breached tm.worker_start_task_time cur) p.2.doing with _ | q
    · rw [hfind] at hev
      simp at hev
    · rw [hfind] at hev
      have hq := List.mem_of_find?_eq_some hfind
      have hbr := List.find?_some hfind
      simp only [breached, Bool.and_eq_true, decide_eq_true_eq] at hbr
      rcases List.mem_cons.mp hev with h1 | h1
      · exact absurd h1 (by simp)
      · have h2 := List.eq_of_mem_replicate h1
        have h3 : w = q.2.worker_id := by
          injection h2
        exact ⟨p, hp, q, hq, h3.symm, hbr.1, h3 ▸ hbr.2⟩
  · intro doing
    exact scanDataset_eq_find _ _ _ doing
  · intro T w tid s name ds h1 h2 h3 h4
    have e1 : T + 1799 - T = (1799 : Int) := by omega
    have e2 : T + 1801 - T = (1801 : Int) := by omega
    constructor
    · simp [TaskManager.check_and_reassign_timeout_tasks_pass, h1, h2, h3, h4,
        scanDataset, breached, dictGet, TASK_TIMEOUT_THRESHOLD_SECS, e1]
    · simp [TaskManager.check_and_reassign_timeout_tasks_pass, h1, h2, h3, h4,
        scanDataset, breached, dictGet, TASK_TIMEOUT_THRESHOLD_SECS, e2]

/-- Witness for C3: on tmEval (one EVALUATION lease of worker 5 taken at
time 1000, one registered callback) a pass at 2799 emits nothing and a pass
at 2801 emits exactly one callback carrying worker 5. -/
theorem c3_timeout_scan_pass_witness :
    tmEval.check_and_reassign_timeout_tasks_pass (1000 + 1799) = [] ∧
    tmEval.check_and_reassign_timeout_tasks_pass (1000 + 1801) =
      [Event.logInfo msgWorkerTimeout, Event.timeoutCallback 5] :=
  (c3_timeout_scan_pass tmEval 0).2.2 1000 5 0 shardA "e" dsEval rfl rfl rfl rfl

theorem dictSet_self {α β : Type} [DecidableEq α] (m : List (α × β)) (k : α) (v : β)
    (h : dictGet m k = some v) : dictSet m k v = m := by
  induction m with
  | nil => simp [dictGet] at h
  | cons p rest ih =>
    by_cases hp : p.1 = k
    · simp only [dictGet, if_pos hp] at h
      simp only [dictSet, if_pos hp]
      have hv : v = p.2 := by
        injection h with h'
        exact h'.symm
      rw [hv, ← hp]
    · simp only [dictGet, if_neg hp] at h
      simp only [dictSet, if_neg hp]
      rw [ih h]

theorem lookupAll_congr (m m' : List (Int × DoingTask)) :
    ∀ ids : List Int, (∀ id ∈ ids, dictGet m id = dictGet m' id) →
      lookupAll m ids = lookupAll m' ids := by
  intro ids
  induction ids with
  | nil =>
    intro _
    rfl
  | cons id rest ih =>
    intro h
    simp only [lookupAll, List.filterMap_cons] at ih ⊢
    rw [h id (List.mem_cons_self _ _), ih (fun i hi => h i (List.mem_cons_of_mem _ hi))]

theorem lookupAll_perfect (m : List (Int × DoingTask)) (hnd : (m.map Prod.fst).Nodup) :
    ∀ s : List (Int × DoingTask), (∀ q ∈ s, q ∈ m) →
      lookupAll m (s.map Prod.fst) = s := by
  intro s
  induction s with
  | nil =>
    intro _
    rfl
  | cons q rest ih =>
    intro hs
    have hq : dictGet m q.1 = some q.2 :=
      mem_dictGet_of_nodup m q.1 q.2 hnd (hs q (List.mem_cons_self _ _))
    simp only [lookupAll, List.map_cons, List.filterMap_cons, hq, Option.map_some']
    rw [show ((q.1, q.2) : Int × DoingTask) = q from rfl]
    have := ih (fun r hr => hs r (List.mem_cons_of_mem _ hr))
    simp only [lookupAll] at this
    rw [this]

theorem dictRemoveAll_eq_filter {α β : Type} [DecidableEq α] :
    ∀ (ids : List α) (m : List (α × β)),
      dictRemoveAll m ids = m.filter (fun p => !(decide (p.1 ∈ ids))) := by
  intro ids
  induction ids with
  | nil =>
    intro m
    simp [dictRemoveAll]
  | cons k rest ih =>
    intro m
    simp only [dictRemoveAll]
    rw [ih (dictRemove m k), dictRemove_eq_filter, List.filter_filter]
    apply List.filter_congr
    intro p _
    by_cases h1 : p.1 = k <;> by_cases h2 : p.1 ∈ rest <;> simp [h1, h2]

theorem filter_keys_worker (m : List (Int × DoingTask)) (w : Int)
    (hnd : (m.map Prod.fst).Nodup) :
    m.filter (fun p =>
        !(decide (p.1 ∈ (m.filter (fun q => decide (q.2.worker_id = w))).map Prod.fst))) =
      m.filter (fun p => !(decide (p.2.worker_id = w))) := by
  apply List.filter_congr
  intro p hp
  have hiff : (p.1 ∈ (m.filter (fun q => decide (q.2.worker_id = w))).map Prod.fst) ↔
      (p.2.worker_id = w) := by
    constructor
    · intro h
      obtain ⟨q, hq, hq1⟩ := List.mem_map.mp h
      have hqm := List.mem_of_mem_filter hq
      have hqw : q.2.worker_id = w := by simpa using List.of_mem_filter hq
      have hpq : p = q := pair_eq_of_keys_nodup m hnd p q hp hqm hq1.symm
      rw [hpq]
      exact hqw
    · intro h
      exact List.mem_map.mpr ⟨p, List.mem_filter.mpr ⟨hp, by simpa using h⟩, rfl⟩
  simp [hiff]

theorem failState_nil (ds : DatasetManger) : failState ds [] = ds := by
  cases ds
  simp [failState, dictRemoveAll, lookupAll, requeueTasks]

theorem failState_cons (ds : DatasetManger) (id : Int) (dt : DoingTask) (rest : List Int)
    (hdt : dictGet ds.doing id = some dt) (hne : ∀ id' ∈ rest, ¬ id' = id) :
    failState
      { ds with
        doing := dictRemove ds.doing id,
        todo := { task_id := ds.next_task_id, task_type := dt.task.task_type,
                  shard := dt.task.shard } :: ds.todo,
        next_task_id := ds.next_task_id + 1 } rest =
      failState ds (id :: rest) := by
  have h1 : lookupAll (dictRemove ds.doing id) rest = lookupAll ds.doing rest :=
    lookupAll_congr _ _ rest
      (fun i hi => dictGet_dictRemove_ne ds.doing id i (fun he => hne i hi he.symm))
  have h2 : lookupAll ds.doing (id :: rest) = (id, dt) :: lookupAll ds.doing rest := by
    simp [lookupAll, List.filterMap_cons, hdt]
  simp only [failState, DatasetManger.mk.injEq, dictRemoveAll, List.length_cons,
    true_and, and_true]
  constructor
  · rw [h1, h2]
    simp [requeueTasks, List.append_assoc]
  · push_cast
    ring

theorem recover_one_dataset (ds : DatasetManger) (w : Int)
    (hnd : (ds.doing.map Prod.fst).Nodup) :
    failState ds ((ds.doing.filter (fun p => decide (p.2.worker_id = w))).map Prod.fst) =
      recoverDataset ds w := by
  have h1 : lookupAll ds.doing
        ((ds.doing.filter (fun p => decide (p.2.worker_id = w))).map Prod.fst) =
      ds.doing.filter (fun p => decide (p.2.worker_id = w)) :=
    lookupAll_perfect ds.doing hnd _ (fun q hq => List.mem_of_mem_filter hq)
  have h2 : dictRemoveAll ds.doing
        ((ds.doing.filter (fun p => decide (p.2.worker_id = w))).map Prod.fst) =
      ds.doing.filter (fun p => !(decide (p.2.worker_id = w))) := by
    rw [dictRemoveAll_eq_filter]
    exact filter_keys_worker ds.doing w hnd
  simp [failState, recoverDataset, h1, h2]

theorem reportFailedTasks_ok (w now : Int) (name : String) :
    ∀ (ids : List Int) (tm : TaskManager) (ds : DatasetManger),
      dictGet tm.datasets name = some ds →
      (∀ id ∈ ids, ∃ dt, dictGet ds.doing id = some dt ∧ dt.worker_id = w) →
      ids.Nodup →
      ∃ evs wst,
        TaskManager.reportFailedTasks name now tm ids =
          Except.ok
            ({ tm with
               datasets := dictSet tm.datasets name (failState ds ids),
               worker_start_task_time := wst }, evs) := by
  intro ids
  induction ids with
  | nil =>
    intro tm ds hds _ _
    refine ⟨[], tm.worker_start_task_time, ?_⟩
    rw [failState_nil, dictSet_self tm.datasets name ds hds]
    rfl
  | cons id rest ih =>
    intro tm ds hds hmem hnd
    obtain ⟨dt, hdt, hdtw⟩ := hmem id (List.mem_cons_self _ _)
    rw [List.nodup_cons] at hnd
    have hne : ∀ id' ∈ rest, ¬ id' = id := by
      intro id' h' he
      exact hnd.1 (he ▸ h')
    have hstep : tm.report_dataset_task { task_id := id, dataset_name := name } false now =
        (Except.ok (dt.task, dt.worker_id),
         { tm with
           datasets := dictSet tm.datasets name
             { ds with
               doing := dictRemove ds.doing id,
               todo := { task_id := ds.next_task_id, task_type := dt.task.task_type,
                         shard := dt.task.shard } :: ds.todo,
               next_task_id := ds.next_task_id + 1 },
           worker_start_task_time := dictSet tm.worker_start_task_time dt.worker_id now }, []) := by
      simp [TaskManager.report_dataset_task, hds, DatasetManger.report_task_status, hdt]
    obtain ⟨evs, wst, hres⟩ := ih
      ({ tm with
         datasets := dictSet tm.datasets name
           { ds with
             doing := dictRemove ds.doing id,
             todo := { task_id := ds.next_task_id, task_type := dt.task.task_type,
                       shard := dt.task.shard } :: ds.todo,
             next_task_id := ds.next_task_id + 1 },
         worker_start_task_time := dictSet tm.worker_start_task_time dt.worker_id now })
      ({ ds with
         doing := dictRemove ds.doing id,
         todo := { task_id := ds.next_task_id, task_type := dt.task.task_type,
                   shard := dt.task.shard } :: ds.todo,
         next_task_id := ds.next_task_id + 1 })
      (dictGet_dictSet_self tm.datasets name _)
      (by
        intro id' h'
        obtain ⟨dt', hdt', hw'⟩ := hmem id' (List.mem_cons_of_mem _ h')
        refine ⟨dt', ?_, hw'⟩
        show dictGet (dictRemove ds.doing id) id' = some dt'
        rw [dictGet_dictRemove_ne ds.doing id id' (fun he => hne id' h' he.symm)]
        exact hdt')
      hnd.2
    refine ⟨evs, wst, ?_⟩
    rw [failState_cons ds id dt rest hdt hne] at hres
    simp only [TaskManager.reportFailedTasks, hstep, hres, dictSet_dictSet, List.nil_append]

theorem recoverLoop_ok (w now : Int) :
    ∀ (names : List String) (tm : TaskManager),
      names.Nodup →
      (∀ n ∈ names, ∃ ds, dictGet tm.datasets n = some ds) →
      (∀ n ds, dictGet tm.datasets n = some ds → (ds.doing.map Prod.fst).Nodup) →
      ∃ tm' evs, TaskManager.recoverLoop w now tm names = Except.ok (tm', evs) ∧
        (∀ n ds, n ∈ names → dictGet tm.datasets n = some ds →
          dictGet tm'.datasets n = some (recoverDataset ds w)) ∧
        (∀ n, ¬ n ∈ names → dictGet tm'.datasets n = dictGet tm.datasets n) := by
  intro names
  induction names with
  | nil =>
    intro tm _ _ _
    exact ⟨tm, [], rfl, fun n ds hn _ => absurd hn (List.not_mem_nil n), fun n _ => rfl⟩
  | cons name rest ih =>
    intro tm hnd hpres hdnd
    obtain ⟨ds, hds⟩ := hpres name (List.mem_cons_self _ _)
    rw [List.nodup_cons] at hnd
    obtain ⟨evs1, wst1, hrep⟩ := reportFailedTasks_ok w now name
      ((ds.doing.filter (fun p => decide (p.2.worker_id = w))).map Prod.fst) tm ds hds
      (by
        intro id hid
        obtain ⟨q, hq, hq1⟩ := List.mem_map.mp hid
        have hqm := List.mem_of_mem_filter hq
        have hqw : q.2.worker_id = w := by simpa using List.of_mem_filter hq
        exact ⟨q.2, hq1 ▸ mem_dictGet_of_nodup ds.doing q.1 q.2 (hdnd name ds hds) hqm, hqw⟩)
      (List.Nodup.sublist (List.Sublist.map Prod.fst (List.filter_sublist _))
        (hdnd name ds hds))
    rw [recover_one_dataset ds w (hdnd name ds hds)] at hrep
    obtain ⟨tm2, evs2, hloop, hpt, hout⟩ := ih
      ({ tm with
         datasets := dictSet tm.datasets name (recoverDataset ds w),
         worker_start_task_time := wst1 })
      hnd.2
      (by
        intro n hn
        have hne : ¬ name = n := fun he => hnd.1 (he ▸ hn)
        have : dictGet (dictSet tm.datasets name (recoverDataset ds w)) n =
            dictGet tm.datasets n := dictGet_dictSet_ne tm.datasets name n _ hne
        rw [show dictGet ({ tm with
              datasets := dictSet tm.datasets name (recoverDataset ds w),
              worker_start_task_time := wst1 } : TaskManager).datasets n =
            dictGet (dictSet tm.datasets name (recoverDataset ds w)) n from rfl, this]
        exact hpres n (List.mem_cons_of_mem _ hn))
      (by
        intro n ds' hds'
        by_cases hn : name = n
        · rw [show dictGet ({ tm with
                datasets := dictSet tm.datasets name (recoverDataset ds w),
                worker_start_task_time := wst1 } : TaskManager).datasets n =
              dictGet (dictSet tm.datasets name (recoverDataset ds w)) n from rfl, ← hn,
            dictGet_dictSet_self] at hds'
          have hds'' : ds' = recoverDataset ds w := by
            injection hds' with h'
            exact h'.symm
          rw [hds'']
          exact List.Nodup.sublist
            (List.Sublist.map Prod.fst (List.filter_sublist _)) (hdnd name ds hds)
        · rw [show dictGet ({ tm with
                datasets := dictSet tm.datasets name (recoverDataset ds w),
                worker_start_task_time := wst1 } : TaskManager).datasets n =
              dictGet (dictSet tm.datasets name (recoverDataset ds w)) n from rfl,
            dictGet_dictSet_ne tm.datasets name n _ hn] at hds'
          exact hdnd n ds' hds')
    refine ⟨tm2, evs1 ++ Event.logInfo msgRecover :: evs2, ?_, ?_, ?_⟩
    · simp only [TaskManager.recoverLoop, DatasetManger.get_doing_tasks, hds, hrep, hloop]
    · intro n ds0 hn hds0
      rcases List.mem_cons.mp hn with h1 | h1
      · subst h1
        have hds0' : ds0 = ds := by
          rw [hds] at hds0
          injection hds0 with h'
          exact h'.symm
        subst hds0'
        rw [hout n hnd.1]
        exact dictGet_dictSet_self tm.datasets n (recoverDataset ds0 w)
      · have hne : ¬ name = n := fun he => hnd.1 (he ▸ h1)
        apply hpt n ds0 h1
        rw [show dictGet ({ tm with
              datasets := dictSet tm.datasets name (recoverDataset ds w),
              worker_start_task_time := wst1 } : TaskManager).datasets n =
            dictGet (dictSet tm.datasets name (recoverDataset ds w)) n from rfl,
          dictGet_dictSet_ne tm.datasets name n _ hne]
        exact hds0
    · intro n hn
      have hn1 : ¬ n ∈ rest := fun h => hn (List.mem_cons_of_mem _ h)
      have hn2 : ¬ name = n := fun he => hn (he ▸ List.mem_cons_self _ _)
      rw [hout n hn1]
      exact dictGet_dictSet_ne tm.datasets name n _ hn2

theorem recoverLoop_noop (w now : Int) :
    ∀ (names : List String) (tm : TaskManager),
      (∀ n ∈ names, ∀ ds, dictGet tm.datasets n = some ds →
        ds.doing.filter (fun p => decide (p.2.worker_id = w)) = []) →
      ∃ evs, TaskManager.recoverLoop w now tm names = Except.ok (tm, evs) := by
  intro names
  induction names with
  | nil =>
    intro tm _
    exact ⟨[], rfl⟩
  | cons name rest ih =>
    intro tm h
    obtain ⟨evs, he⟩ := ih tm (fun n hn => h n (List.mem_cons_of_mem _ hn))
    rcases hd : dictGet tm.datasets name with _ | ds
    · refine ⟨Event.logInfo msgRecover :: evs, ?_⟩
      simp only [TaskManager.recoverLoop, hd, he]
    · have hids : (ds.doing.filter (fun p => decide (p.2.worker_id = w))).map Prod.fst = [] := by
        rw [h name (List.mem_cons_self _ _) ds hd]
        rfl
      refine ⟨Event.logInfo msgRecover :: evs, ?_⟩
      simp only [TaskManager.recoverLoop, DatasetManger.get_doing_tasks, hd, hids,
        TaskManager.reportFailedTasks, he, List.nil_append]

/-- Claim C5: recover_tasks(w) succeeds and, for every registered dataset,
releases exactly the in-flight leases of worker w and re-queues their shards
at the front of pending under fresh task ids with completed untouched
(the resulting dataset is recoverDataset); and when w holds no in-flight
task in any dataset the call returns the manager unchanged (an idempotent
no-op). -/
theorem c5_recover_tasks (tm : TaskManager) (w now : Int)
    (h1 : (tm.datasets.map Prod.fst).Nodup)
    (h2 : ∀ p ∈ tm.datasets, (p.2.doing.map Prod.fst).Nodup) :
    (∃ tm' evs, tm.recover_tasks w now = Except.ok (tm', evs) ∧
      ∀ n ds, dictGet tm.datasets n = some ds →
        dictGet tm'.datasets n = some (recoverDataset ds w)) ∧
    ((∀ p ∈ tm.datasets, ∀ q ∈ p.2.doing, ¬ q.2.worker_id = w) →
      ∃ evs, tm.recover_tasks w now = Except.ok (tm, evs)) := by
  constructor
  · have hpres : ∀ n ∈ tm.datasets.map Prod.fst, ∃ ds, dictGet tm.datasets n = some ds :=
      fun n hn => exists_dictGet_of_mem_keys tm.datasets n hn
    have hnodup : ∀ n ds, dictGet tm.datasets n = some ds → (ds.doing.map Prod.fst).Nodup :=
      fun n ds hds => h2 (n, ds) (dictGet_mem tm.datasets n ds hds)
    obtain ⟨tm', evs, hok, hpt, _⟩ :=
      recoverLoop_ok w now (tm.datasets.map Prod.fst) tm h1 hpres hnodup
    refine ⟨tm', evs, hok, ?_⟩
    intro n ds hds
    exact hpt n ds (List.mem_map.mpr ⟨(n, ds), dictGet_mem tm.datasets n ds hds, rfl⟩) hds
  · intro hno
    apply recoverLoop_noop
    intro n _ ds hds
    rw [List.filter_eq_nil_iff]
    intro q hq
    simpa using hno (n, ds) (dictGet_mem tm.datasets n ds hds) q hq

/-- Witness for C5: on tmC5, whose two datasets each hold one lease of
worker 7, recover_tasks releases both leases and re-queues both shards. -/
theorem c5_recover_tasks_witness :
    (∃ tm' evs, tmC5.recover_tasks 7 100 = Except.ok (tm', evs) ∧
      ∀ n ds, dictGet tmC5.datasets n = some ds →
        dictGet tm'.datasets n = some (recoverDataset ds 7)) ∧
    ((∀ p ∈ tmC5.datasets, ∀ q ∈ p.2.doing, ¬ q.2.worker_id = 7) →
      ∃ evs, tmC5.recover_tasks 7 100 = Except.ok (tmC5, evs)) :=
  c5_recover_tasks tmC5 7 100 (by decide) (by decide)

end Dlrover
